import Mathlib

/-!
Verification of the ROT2Prog controller simulator (`src/rot2prog/simulate.py`).

The simulator keeps an azimuth, an elevation and a pulses-per-degree
resolution, reads fixed 13-byte command frames from a serial transport and
answers Stop/Status frames with a 12-byte response built from the current
state.  The embedding below mirrors the body of `ROT2ProgSim._run` one
iteration at a time.

Modelling conventions:
* Angles are stored in exact tenths of a degree (`ℤ`).  Every value the
  Python state can hold is a float obtained from `round(x, 1)` applied to an
  exactly representable quarter-integer, and all the float operations the
  simulator performs on such values (adding `360.0`, dividing by 1, 2 or 4,
  `round(_, 1)`, `str`) are exact in IEEE double precision on the ranges
  involved, so the integer-tenths model tracks the Python floats exactly.
* Python `round(x, 1)` rounds to the nearest multiple of 0.1 with ties going
  to an even final digit; `roundTenths` reproduces this on rationals.
* A serial packet is a `List ℤ` of byte values; `list(self._ser.read(13))`
  can be any list of length at most 13.
-/

/-- Round a rational to the nearest integer, ties to the even neighbour.
This is the integer core of Python's banker's rounding. -/
def roundHalfEven (q : ℚ) : ℤ :=
  let f := ⌊q⌋
  let r := q - f
  if r < 1/2 then f
  else if r > 1/2 then f + 1
  else if f % 2 = 0 then f else f + 1

/-- Model of Python `round(x, 1)` with the result expressed in tenths:
`roundTenths x` is `round(x, 1) * 10` as an integer. -/
def roundTenths (x : ℚ) : ℤ := roundHalfEven (10 * x)

/-- The mutable state of `ROT2ProgSim`: `_az` and `_el` in tenths of a
degree, and `_pulses_per_degree`. -/
structure SimState where
  az : ℤ
  el : ℤ
  pulsesPerDegree : ℕ
deriving DecidableEq, Repr

/-- The state of a fresh simulator: class attributes `_az = 0`, `_el = 0`,
with `_pulses_per_degree` set by the constructor. -/
def initState (ppd : ℕ) : SimState :=
  { az := 0, el := 0, pulsesPerDegree := ppd }

/-- Model of Python `str` on a natural number: its decimal digits,
most significant first. -/
def natStr (n : ℕ) : List Char :=
  if n = 0 then ['0'] else (Nat.digits 10 n).reverse.map Nat.digitChar

/-- Model of Python `str(round(float(az + 360), 1))` where the argument is
the nonnegative value `t/10` given in tenths: integer part, a decimal
point, and the single tenths digit. -/
def tenthsStr (t : ℕ) : List Char :=
  natStr (t / 10) ++ ['.', Nat.digitChar (t % 10)]

/-- The padded working string `"00000" + str(round(float(az + 360), 1))`
from the response encoder. -/
def padded (t : ℕ) : List Char :=
  '0' :: '0' :: '0' :: '0' :: '0' :: tenthsStr t

/-- Model of Python `int(c)` on a single digit character. -/
def charDigit (c : Char) : ℤ := (c.toNat : ℤ) - 48

/-- Python negative string indexing: `l[-i]` is the element `i` places from
the end. -/
def negIdx (l : List Char) (i : ℕ) : Char := l.getD (l.length - i) ' '

/-- The four response digit bytes `[int(H[-5]), int(H[-4]), int(H[-3]),
int(H[-1])]` produced by string slicing, for an axis whose encoded value
`az + 360` is `t` tenths. -/
def axisDigits (t : ℕ) : List ℤ :=
  [charDigit (negIdx (padded t) 5), charDigit (negIdx (padded t) 4),
   charDigit (negIdx (padded t) 3), charDigit (negIdx (padded t) 1)]

/-- The response digit bytes for an axis whose state value is `k` tenths of
a degree, following the source: encode `k/10 + 360` and slice its padded
decimal string. -/
def axisBytes (k : ℤ) : List ℤ := axisDigits (k + 3600).toNat

/-- Modelled from the spec: explicit fixed-width integer formatting of
`round(Y * 10)`, producing the hundreds, tens, units and tenths digits of
`Y = t/10` as numeric values.  This is the formatting the spec proposes as
a replacement for the string slicing. -/
def axisDigitsFmt (t : ℕ) : List ℤ :=
  [((t / 1000 % 10 : ℕ) : ℤ), ((t / 100 % 10 : ℕ) : ℤ),
   ((t / 10 % 10 : ℕ) : ℤ), ((t % 10 : ℕ) : ℤ)]

/-- The ASCII-digit decoding used for Set frames: for the four bytes at
offsets `i .. i+3`, compute `(b0-0x30)*1000 + (b1-0x30)*100 + (b2-0x30)*10
+ (b3-0x30)`. -/
def decodeDigits (p : List ℤ) (i : ℕ) : ℤ :=
  (p.getD i 0 - 0x30) * 1000 + (p.getD (i + 1) 0 - 0x30) * 100 +
    (p.getD (i + 2) 0 - 0x30) * 10 + (p.getD (i + 3) 0 - 0x30)

/-- The 12-byte response packet built for Stop and Status commands:
`[0x57, H digits, ppd, V digits, ppd, 0x20]`. -/
def responsePacket (s : SimState) : List ℤ :=
  [0x57] ++ axisBytes s.az ++ [(s.pulsesPerDegree : ℤ)] ++
    axisBytes s.el ++ [(s.pulsesPerDegree : ℤ), 0x20]

/-- One iteration of the `ROT2ProgSim._run` service loop on a received
packet: returns the new state and the bytes written to the serial port.
A packet whose length is not 13 is only logged; `K = p[11]` selects the
command; `0x0F`/`0x1F` answer with the response packet; `0x2F` decodes
`H` and `V` and stores `H / ppd - 360.0` and `V / ppd - 360.0`, each
rounded to one decimal place; anything else is logged as invalid. -/
def step (s : SimState) (p : List ℤ) : SimState × List ℤ :=
  if p.length ≠ 13 then (s, [])
  else if p.getD 11 0 = 0x0F ∨ p.getD 11 0 = 0x1F then (s, responsePacket s)
  else if p.getD 11 0 = 0x2F then
    ({ az := roundTenths ((decodeDigits p 1 : ℚ) / (s.pulsesPerDegree : ℚ) - 360),
       el := roundTenths ((decodeDigits p 6 : ℚ) / (s.pulsesPerDegree : ℚ) - 360),
       pulsesPerDegree := s.pulsesPerDegree }, [])
  else (s, [])

/-- Folding the service loop body over a list of received packets,
keeping only the state. -/
def processAll (s : SimState) (ps : List (List ℤ)) : SimState :=
  ps.foldl (fun a q => (step a q).1) s

/-- Observable transport events of the service loop. -/
inductive Event where
  | read (bs : List ℤ) : Event
  | write (bs : List ℤ) : Event
deriving DecidableEq, Repr

/-- The service loop observed for `fuel` further iterations starting at
iteration boundary `i`: `while self._keep_running:` checks `flag i` at the
boundary, then reads `input i` and runs one `step`, emitting the read and
any write.  `flag` is the `_keep_running` flag as seen at each boundary and
`input` the bytes delivered by each `read(13)` call. -/
def runFrom (flag : ℕ → Bool) (input : ℕ → List ℤ) (s : SimState) (i : ℕ) :
    ℕ → List Event
  | 0 => []
  | fuel + 1 =>
    if flag i then
      (Event.read (input i) ::
        (if (step s (input i)).2 = [] then [] else [Event.write (step s (input i)).2])) ++
        runFrom flag input (step s (input i)).1 (i + 1) fuel
    else []

/-- The 13-byte Set command frame encoding `H` and `V` as four ASCII
digits each, per the section-3 layout: marker, `H` digits at offsets 1-4,
resolution, `V` digits at offsets 6-9, resolution, command `0x2F`,
terminator. -/
def digitByte (n : ℕ) (i : ℕ) : ℤ := 0x30 + ((n / 10 ^ i % 10 : ℕ) : ℤ)

/-- Builds the Set frame for encoded values `H` and `V`. -/
def setFrame (H V ppd : ℕ) : List ℤ :=
  [0x57, digitByte H 3, digitByte H 2, digitByte H 1, digitByte H 0, (ppd : ℤ),
   digitByte V 3, digitByte V 2, digitByte V 1, digitByte V 0, (ppd : ℤ), 0x2F, 0x20]

/-! ### Helper lemmas -/

lemma digits_lt10 (n : ℕ) (h0 : 0 < n) (h : n < 10) : Nat.digits 10 n = [n] := by
  rw [Nat.digits_def' (by norm_num) h0, Nat.div_eq_of_lt h, Nat.mod_eq_of_lt h]
  simp

lemma digits_lt100 (n : ℕ) (h0 : 10 ≤ n) (h : n < 100) :
    Nat.digits 10 n = [n % 10, n / 10] := by
  rw [Nat.digits_def' (by norm_num) (by omega)]
  rw [digits_lt10 (n / 10) (by omega) (by omega)]

lemma digits_lt1000 (n : ℕ) (h0 : 100 ≤ n) (h : n < 1000) :
    Nat.digits 10 n = [n % 10, n / 10 % 10, n / 100] := by
  rw [Nat.digits_def' (by norm_num) (by omega)]
  rw [digits_lt100 (n / 10) (by omega) (by omega)]
  have h2 : n / 10 / 10 = n / 100 := by omega
  rw [h2]

lemma charDigit_digitChar (k : ℕ) (h : k < 10) : charDigit (Nat.digitChar k) = k := by
  interval_cases k <;> rfl

lemma charDigit_zeroChar : charDigit '0' = 0 := by rfl

lemma natStr_lt10 (n : ℕ) (h : n < 10) : natStr n = [Nat.digitChar n] := by
  rcases Nat.eq_zero_or_pos n with h0 | h0
  · subst h0; rfl
  · rw [natStr, if_neg (by omega), digits_lt10 n h0 h]
    rfl

lemma natStr_lt100 (n : ℕ) (h0 : 10 ≤ n) (h : n < 100) :
    natStr n = [Nat.digitChar (n / 10), Nat.digitChar (n % 10)] := by
  rw [natStr, if_neg (by omega), digits_lt100 n h0 h]
  rfl

lemma natStr_lt1000 (n : ℕ) (h0 : 100 ≤ n) (h : n < 1000) :
    natStr n = [Nat.digitChar (n / 100), Nat.digitChar (n / 10 % 10), Nat.digitChar (n % 10)] := by
  rw [natStr, if_neg (by omega), digits_lt1000 n h0 h]
  rfl

lemma axisDigits_eq_fmt (t : ℕ) (ht : t < 10000) : axisDigits t = axisDigitsFmt t := by
  have hd : t % 10 < 10 := Nat.mod_lt _ (by norm_num)
  rcases Nat.lt_or_ge (t / 10) 10 with h10 | h10
  · have hp : padded t =
        ['0', '0', '0', '0', '0', Nat.digitChar (t / 10), '.', Nat.digitChar (t % 10)] := by
      rw [padded, tenthsStr, natStr_lt10 _ h10]
      rfl
    have e5 : negIdx (padded t) 5 = '0' := by rw [hp]; rfl
    have e4 : negIdx (padded t) 4 = '0' := by rw [hp]; rfl
    have e3 : negIdx (padded t) 3 = Nat.digitChar (t / 10) := by rw [hp]; rfl
    have e1 : negIdx (padded t) 1 = Nat.digitChar (t % 10) := by rw [hp]; rfl
    rw [axisDigits, e5, e4, e3, e1, axisDigitsFmt]
    simp only [charDigit_zeroChar, charDigit_digitChar _ h10, charDigit_digitChar _ hd,
      List.cons.injEq, and_true]
    omega
  · rcases Nat.lt_or_ge (t / 10) 100 with h100 | h100
    · have hp : padded t =
          ['0', '0', '0', '0', '0', Nat.digitChar (t / 10 / 10), Nat.digitChar (t / 10 % 10),
           '.', Nat.digitChar (t % 10)] := by
        rw [padded, tenthsStr, natStr_lt100 _ h10 h100]
        rfl
      have e5 : negIdx (padded t) 5 = '0' := by rw [hp]; rfl
      have e4 : negIdx (padded t) 4 = Nat.digitChar (t / 10 / 10) := by rw [hp]; rfl
      have e3 : negIdx (padded t) 3 = Nat.digitChar (t / 10 % 10) := by rw [hp]; rfl
      have e1 : negIdx (padded t) 1 = Nat.digitChar (t % 10) := by rw [hp]; rfl
      rw [axisDigits, e5, e4, e3, e1, axisDigitsFmt]
      simp only [charDigit_zeroChar, charDigit_digitChar _ (show t / 10 / 10 < 10 by omega),
        charDigit_digitChar _ (show t / 10 % 10 < 10 by omega), charDigit_digitChar _ hd,
        List.cons.injEq, and_true]
      omega
    · have h1000 : t / 10 < 1000 := by omega
      have hp : padded t =
          ['0', '0', '0', '0', '0', Nat.digitChar (t / 10 / 100), Nat.digitChar (t / 10 / 10 % 10),
           Nat.digitChar (t / 10 % 10), '.', Nat.digitChar (t % 10)] := by
        rw [padded, tenthsStr, natStr_lt1000 _ h100 h1000]
        rfl
      have e5 : negIdx (padded t) 5 = Nat.digitChar (t / 10 / 100) := by rw [hp]; rfl
      have e4 : negIdx (padded t) 4 = Nat.digitChar (t / 10 / 10 % 10) := by rw [hp]; rfl
      have e3 : negIdx (padded t) 3 = Nat.digitChar (t / 10 % 10) := by rw [hp]; rfl
      have e1 : negIdx (padded t) 1 = Nat.digitChar (t % 10) := by rw [hp]; rfl
      rw [axisDigits, e5, e4, e3, e1, axisDigitsFmt]
      simp only [charDigit_digitChar _ (show t / 10 / 100 < 10 by omega),
        charDigit_digitChar _ (show t / 10 / 10 % 10 < 10 by omega),
        charDigit_digitChar _ (show t / 10 % 10 < 10 by omega), charDigit_digitChar _ hd,
        List.cons.injEq, and_true]
      omega

lemma step_of_short (s : SimState) (p : List ℤ) (h : p.length ≠ 13) :
    step s p = (s, []) := by
  rw [step, if_pos h]

lemma step_of_stopStatus (s : SimState) (p : List ℤ) (hlen : p.length = 13)
    (hK : p.getD 11 0 = 0x0F ∨ p.getD 11 0 = 0x1F) :
    step s p = (s, responsePacket s) := by
  rw [step, if_neg (by simp [hlen]), if_pos hK]

lemma step_of_set (s : SimState) (p : List ℤ) (hlen : p.length = 13)
    (hK : p.getD 11 0 = 0x2F) :
    step s p =
      ({ az := roundTenths ((decodeDigits p 1 : ℚ) / (s.pulsesPerDegree : ℚ) - 360),
         el := roundTenths ((decodeDigits p 6 : ℚ) / (s.pulsesPerDegree : ℚ) - 360),
         pulsesPerDegree := s.pulsesPerDegree }, []) := by
  rw [step, if_neg (by simp [hlen]), if_neg (by rw [hK]; decide), if_pos hK]

lemma step_of_invalid (s : SimState) (p : List ℤ) (hlen : p.length = 13)
    (h0 : p.getD 11 0 ≠ 0x0F) (h1 : p.getD 11 0 ≠ 0x1F) (h2 : p.getD 11 0 ≠ 0x2F) :
    step s p = (s, []) := by
  rw [step, if_neg (by simp [hlen]), if_neg (by tauto), if_neg h2]

lemma step_fst_of_not_set (s : SimState) (p : List ℤ)
    (h : p.length ≠ 13 ∨ p.getD 11 0 ≠ 0x2F) : (step s p).1 = s := by
  by_cases hl : p.length = 13
  · by_cases hss : p.getD 11 0 = 0x0F ∨ p.getD 11 0 = 0x1F
    · rw [step_of_stopStatus s p hl hss]
    · have h2 : p.getD 11 0 ≠ 0x2F := by tauto
      rw [step_of_invalid s p hl (by tauto) (by tauto) h2]
  · rw [step_of_short s p hl]

lemma processAll_of_no_set (ps : List (List ℤ)) (s : SimState)
    (h : ∀ q ∈ ps, q.length ≠ 13 ∨ q.getD 11 0 ≠ 0x2F) : processAll s ps = s := by
  induction ps generalizing s with
  | nil => rfl
  | cons q qs ih =>
    rw [processAll, List.foldl_cons]
    rw [step_fst_of_not_set s q (h q (by simp))]
    exact ih s (fun r hr => h r (by simp [hr]))

lemma axisBytes_zero : axisBytes 0 = [3, 6, 0, 0] := by
  rw [axisBytes, show ((0 : ℤ) + 3600).toNat = 3600 from rfl,
    axisDigits_eq_fmt 3600 (by norm_num)]
  decide

lemma responsePacket_init (ppd : ℕ) :
    responsePacket (initState ppd) =
      [0x57, 3, 6, 0, 0, (ppd : ℤ), 3, 6, 0, 0, (ppd : ℤ), 0x20] := by
  rw [responsePacket]
  rw [show (initState ppd).az = 0 from rfl, show (initState ppd).el = 0 from rfl,
    show (initState ppd).pulsesPerDegree = ppd from rfl, axisBytes_zero]
  rfl

lemma decode_setFrame_H (H V ppd : ℕ) (h : H < 10000) :
    decodeDigits (setFrame H V ppd) 1 = (H : ℤ) := by
  have e : decodeDigits (setFrame H V ppd) 1 =
      (digitByte H 3 - 0x30) * 1000 + (digitByte H 2 - 0x30) * 100 +
        (digitByte H 1 - 0x30) * 10 + (digitByte H 0 - 0x30) := rfl
  have d3 : digitByte H 3 = 0x30 + ((H / 1000 % 10 : ℕ) : ℤ) := rfl
  have d2 : digitByte H 2 = 0x30 + ((H / 100 % 10 : ℕ) : ℤ) := rfl
  have d1 : digitByte H 1 = 0x30 + ((H / 10 % 10 : ℕ) : ℤ) := rfl
  have d0 : digitByte H 0 = 0x30 + ((H / 1 % 10 : ℕ) : ℤ) := rfl
  rw [e, d3, d2, d1, d0]
  omega

lemma decode_setFrame_V (H V ppd : ℕ) (h : V < 10000) :
    decodeDigits (setFrame H V ppd) 6 = (V : ℤ) := by
  have e : decodeDigits (setFrame H V ppd) 6 =
      (digitByte V 3 - 0x30) * 1000 + (digitByte V 2 - 0x30) * 100 +
        (digitByte V 1 - 0x30) * 10 + (digitByte V 0 - 0x30) := rfl
  have d3 : digitByte V 3 = 0x30 + ((V / 1000 % 10 : ℕ) : ℤ) := rfl
  have d2 : digitByte V 2 = 0x30 + ((V / 100 % 10 : ℕ) : ℤ) := rfl
  have d1 : digitByte V 1 = 0x30 + ((V / 10 % 10 : ℕ) : ℤ) := rfl
  have d0 : digitByte V 0 = 0x30 + ((V / 1 % 10 : ℕ) : ℤ) := rfl
  rw [e, d3, d2, d1, d0]
  omega

/-! ### Claims -/

/-- Claim C1: for `pulsesPerDegree ∈ {1,2,4}` and azimuth/elevation in
`[-360, 360)`, building the Set frame that encodes `H = (az+360)*ppd` and
`V = (el+360)*ppd` as four ASCII digits with command byte `0x2F`, then
processing it, stores the original azimuth and elevation rounded to one
decimal place (in tenths), and leaves the resolution unchanged. -/
theorem set_frame_roundtrip (s : SimState) (ppd : ℕ)
    (hppd : ppd = 1 ∨ ppd = 2 ∨ ppd = 4) (hs : s.pulsesPerDegree = ppd)
    (az el : ℚ) (haz0 : -360 ≤ az) (haz1 : az < 360) (hel0 : -360 ≤ el) (hel1 : el < 360)
    (H V : ℕ) (hH : (H : ℚ) = (az + 360) * ppd) (hV : (V : ℚ) = (el + 360) * ppd) :
    step s (setFrame H V ppd) =
      ({ az := roundTenths az, el := roundTenths el, pulsesPerDegree := ppd }, []) := by
  have hne : (ppd : ℚ) ≠ 0 := by rcases hppd with h | h | h <;> subst h <;> norm_num
  have hHq : (H : ℚ) < 10000 := by
    rcases hppd with h | h | h <;> subst h <;> rw [hH] <;> push_cast <;> nlinarith
  have hVq : (V : ℚ) < 10000 := by
    rcases hppd with h | h | h <;> subst h <;> rw [hV] <;> push_cast <;> nlinarith
  have hHlt : H < 10000 := by exact_mod_cast hHq
  have hVlt : V < 10000 := by exact_mod_cast hVq
  rw [step_of_set s (setFrame H V ppd) rfl rfl]
  rw [decode_setFrame_H H V ppd hHlt, decode_setFrame_V H V ppd hVlt, hs]
  have eH : (((H : ℤ) : ℚ)) / (ppd : ℚ) - 360 = az := by
    push_cast
    rw [hH]
    field_simp
  have eV : (((V : ℤ) : ℚ)) / (ppd : ℚ) - 360 = el := by
    push_cast
    rw [hV]
    field_simp
  rw [eH, eV]

/-- Witness for C1 at `ppd = 4`, azimuth `0.25°` (stored as `0.2°`, a
banker's-rounding tie) and elevation `-359.75°` (stored as `-359.8°`). -/
theorem set_frame_roundtrip_witness :
    step (initState 4) (setFrame 1441 1 4) =
      ({ az := 2, el := -3598, pulsesPerDegree := 4 }, []) := by
  have h := set_frame_roundtrip (initState 4) 4 (by norm_num) rfl
      (1/4) (-1439/4) (by norm_num) (by norm_num) (by norm_num) (by norm_num)
      1441 1 (by norm_num) (by norm_num)
  rw [h]
  norm_num [roundTenths, roundHalfEven]

/-- Claim C2: a complete 13-byte frame with command byte `0x2F` sets
azimuth to `H / pulsesPerDegree - 360.0` and elevation to
`V / pulsesPerDegree - 360.0`, each rounded to one decimal place, where
`H` and `V` are the ASCII-digit values decoded from offsets 1-4 and 6-9;
the resolution is unchanged and nothing is written. -/
theorem set_frame_decode (s : SimState)
    (hppd : s.pulsesPerDegree = 1 ∨ s.pulsesPerDegree = 2 ∨ s.pulsesPerDegree = 4)
    (p : List ℤ) (hlen : p.length = 13) (hK : p.getD 11 0 = 0x2F) :
    step s p =
      ({ az := roundTenths ((((p.getD 1 0 - 0x30) * 1000 + (p.getD 2 0 - 0x30) * 100 +
              (p.getD 3 0 - 0x30) * 10 + (p.getD 4 0 - 0x30) : ℤ) : ℚ) /
            (s.pulsesPerDegree : ℚ) - 360),
         el := roundTenths ((((p.getD 6 0 - 0x30) * 1000 + (p.getD 7 0 - 0x30) * 100 +
              (p.getD 8 0 - 0x30) * 10 + (p.getD 9 0 - 0x30) : ℤ) : ℚ) /
            (s.pulsesPerDegree : ℚ) - 360),
         pulsesPerDegree := s.pulsesPerDegree }, []) := by
  rw [step_of_set s p hlen hK]
  rfl

/-- Witness for C2: digits `1234` and `0009` at resolution 2 store
`257.0°` and `-355.5°`. -/
theorem set_frame_decode_witness :
    step { az := 0, el := 0, pulsesPerDegree := 2 }
        [87, 49, 50, 51, 52, 2, 48, 48, 48, 57, 2, 47, 32] =
      ({ az := 2570, el := -3555, pulsesPerDegree := 2 }, []) := by
  have h := set_frame_decode { az := 0, el := 0, pulsesPerDegree := 2 }
      (by norm_num) [87, 49, 50, 51, 52, 2, 48, 48, 48, 57, 2, 47, 32] rfl rfl
  rw [h]
  have eH : ((([87, 49, 50, 51, 52, 2, 48, 48, 48, 57, 2, 47, 32] : List ℤ).getD 1 0 - 0x30) * 1000 +
      (([87, 49, 50, 51, 52, 2, 48, 48, 48, 57, 2, 47, 32] : List ℤ).getD 2 0 - 0x30) * 100 +
      (([87, 49, 50, 51, 52, 2, 48, 48, 48, 57, 2, 47, 32] : List ℤ).getD 3 0 - 0x30) * 10 +
      (([87, 49, 50, 51, 52, 2, 48, 48, 48, 57, 2, 47, 32] : List ℤ).getD 4 0 - 0x30) : ℤ) = 1234 := by
    decide
  have eV : ((([87, 49, 50, 51, 52, 2, 48, 48, 48, 57, 2, 47, 32] : List ℤ).getD 6 0 - 0x30) * 1000 +
      (([87, 49, 50, 51, 52, 2, 48, 48, 48, 57, 2, 47, 32] : List ℤ).getD 7 0 - 0x30) * 100 +
      (([87, 49, 50, 51, 52, 2, 48, 48, 48, 57, 2, 47, 32] : List ℤ).getD 8 0 - 0x30) * 10 +
      (([87, 49, 50, 51, 52, 2, 48, 48, 48, 57, 2, 47, 32] : List ℤ).getD 9 0 - 0x30) : ℤ) = 9 := by
    decide
  rw [eH, eV]
  norm_num [roundTenths, roundHalfEven]

/-- Claim C3: from state azimuth `0.0`, elevation `0.0`, resolution 1, a
Status frame (command byte `0x1F`) produces the response
`[0x57, 3, 6, 0, 0, 1, 3, 6, 0, 0, 1, 0x20]`: digit bytes `[3,6,0,0]` for
both axes, resolution bytes 1 at offsets 5 and 10, marker at offset 0 and
terminator at offset 11; the state is unchanged. -/
theorem status_response_at_zero (p : List ℤ) (hlen : p.length = 13)
    (hK : p.getD 11 0 = 0x1F) :
    step { az := 0, el := 0, pulsesPerDegree := 1 } p =
      ({ az := 0, el := 0, pulsesPerDegree := 1 },
        [0x57, 3, 6, 0, 0, 1, 3, 6, 0, 0, 1, 0x20]) := by
  rw [step_of_stopStatus _ p hlen (Or.inr hK)]
  have h2 : responsePacket { az := 0, el := 0, pulsesPerDegree := 1 } =
      [0x57, 3, 6, 0, 0, 1, 3, 6, 0, 0, 1, 0x20] := by
    simpa [initState] using responsePacket_init 1
  rw [h2]

/-- Witness for C3 on a concrete Status frame. -/
theorem status_response_at_zero_witness :
    step { az := 0, el := 0, pulsesPerDegree := 1 }
        [0, 0, 0, 0, 0, 0, 0, 0, 0, 0, 0, 31, 0] =
      ({ az := 0, el := 0, pulsesPerDegree := 1 },
        [0x57, 3, 6, 0, 0, 1, 3, 6, 0, 0, 1, 0x20]) :=
  status_response_at_zero _ rfl rfl

/-- Claim C4: for every in-range axis value, a multiple of 0.1 given here
as `k` tenths with `-360 ≤ k/10 < 360`, the digit bytes obtained by the
source's pad-and-slice on the decimal string of `Y = k/10 + 360` equal the
hundreds, tens, units and tenths digits produced by explicit fixed-width
formatting of `round(Y*10) = k + 3600`. -/
theorem slicing_eq_fixed_width (k : ℤ) (h0 : -3600 ≤ k) (h1 : k < 3600) :
    axisBytes k = axisDigitsFmt (k + 3600).toNat := by
  rw [axisBytes]
  exact axisDigits_eq_fmt _ (by omega)

/-- Witness for C4 at `-0.1°`, a boundary value just below zero. -/
theorem slicing_eq_fixed_width_witness : axisBytes (-1) = [3, 5, 9, 9] := by
  have h := slicing_eq_fixed_width (-1) (by norm_num) (by norm_num)
  rw [h]
  decide

/-- Claim C5: a read of fewer than 13 bytes leaves the state unchanged and
writes nothing, and the service loop goes on to the next read: the trace of
an iteration that receives the short packet is just the read, followed by
the loop continuing from the same state. -/
theorem incomplete_frame_noop (s : SimState) (p : List ℤ) (h : p.length < 13) :
    step s p = (s, []) ∧
      ∀ (flag : ℕ → Bool) (input : ℕ → List ℤ) (i fuel : ℕ),
        flag i = true → input i = p →
        runFrom flag input s i (fuel + 1) =
          Event.read p :: runFrom flag input s (i + 1) fuel := by
  have hstep : step s p = (s, []) := step_of_short s p (by omega)
  refine ⟨hstep, ?_⟩
  intro flag input i fuel hflag hinput
  simp [runFrom, hflag, hinput, hstep]

/-- Witness for C5 on an empty read. -/
theorem incomplete_frame_noop_witness :
    step (initState 1) [] = (initState 1, []) ∧
      runFrom (fun _ => true) (fun _ => []) (initState 1) 0 (0 + 1) =
        Event.read [] :: runFrom (fun _ => true) (fun _ => []) (initState 1) (0 + 1) 0 := by
  have h := incomplete_frame_noop (initState 1) [] (by decide)
  exact ⟨h.1, h.2 (fun _ => true) (fun _ => []) 0 0 rfl rfl⟩

/-- Claim C6: a complete 13-byte frame whose command byte is outside
`{0x0F, 0x1F, 0x2F}` leaves the state unchanged and writes nothing, and
the loop keeps running: the iteration's trace is just the read, followed
by the loop continuing from the same state. -/
theorem invalid_command_noop (s : SimState) (p : List ℤ) (hlen : p.length = 13)
    (h0 : p.getD 11 0 ≠ 0x0F) (h1 : p.getD 11 0 ≠ 0x1F) (h2 : p.getD 11 0 ≠ 0x2F) :
    step s p = (s, []) ∧
      ∀ (flag : ℕ → Bool) (input : ℕ → List ℤ) (i fuel : ℕ),
        flag i = true → input i = p →
        runFrom flag input s i (fuel + 1) =
          Event.read p :: runFrom flag input s (i + 1) fuel := by
  have hstep : step s p = (s, []) := step_of_invalid s p hlen h0 h1 h2
  refine ⟨hstep, ?_⟩
  intro flag input i fuel hflag hinput
  simp [runFrom, hflag, hinput, hstep]

/-- Witness for C6 on a frame with command byte `0xFF`. -/
theorem invalid_command_noop_witness :
    step { az := 123, el := -456, pulsesPerDegree := 2 }
        [87, 48, 48, 48, 48, 1, 48, 48, 48, 48, 1, 255, 32] =
      ({ az := 123, el := -456, pulsesPerDegree := 2 }, []) ∧
      runFrom (fun _ => true) (fun _ => [87, 48, 48, 48, 48, 1, 48, 48, 48, 48, 1, 255, 32])
          { az := 123, el := -456, pulsesPerDegree := 2 } 0 (0 + 1) =
        Event.read [87, 48, 48, 48, 48, 1, 48, 48, 48, 48, 1, 255, 32] ::
          runFrom (fun _ => true) (fun _ => [87, 48, 48, 48, 48, 1, 48, 48, 48, 48, 1, 255, 32])
            { az := 123, el := -456, pulsesPerDegree := 2 } (0 + 1) 0 := by
  have h := invalid_command_noop { az := 123, el := -456, pulsesPerDegree := 2 }
      [87, 48, 48, 48, 48, 1, 48, 48, 48, 48, 1, 255, 32] rfl
      (by decide) (by decide) (by decide)
  exact ⟨h.1, h.2 _ _ 0 0 rfl rfl⟩

/-- Claim C7: processing a complete 13-byte frame whose command byte is
`0x2F` (Set) writes nothing to the transport. -/
theorem set_frame_no_response (s : SimState) (p : List ℤ) (hlen : p.length = 13)
    (hK : p.getD 11 0 = 0x2F) : (step s p).2 = [] := by
  rw [step_of_set s p hlen hK]

/-- Witness for C7 on a concrete Set frame. -/
theorem set_frame_no_response_witness :
    (step { az := 0, el := 0, pulsesPerDegree := 1 }
        [87, 48, 48, 48, 48, 1, 48, 48, 48, 48, 1, 47, 32]).2 = [] :=
  set_frame_no_response _ _ rfl rfl

/-- Claim C9: once the `_keep_running` flag reads false at an iteration
boundary, the loop performs no further iteration: no read and no write is
emitted from that boundary on, for any number of remaining iterations. -/
theorem stop_flag_halts_loop (flag : ℕ → Bool) (input : ℕ → List ℤ) (s : SimState)
    (i fuel : ℕ) (h : flag i = false) : runFrom flag input s i fuel = [] := by
  cases fuel with
  | zero => rfl
  | succ f => simp [runFrom, h]

/-- Witness for C9 with the flag lowered before the first boundary. -/
theorem stop_flag_halts_loop_witness :
    runFrom (fun _ => false) (fun _ => []) (initState 1) 0 5 = [] :=
  stop_flag_halts_loop _ _ _ 0 5 rfl

/-- Claim C10: before any complete Set frame has been processed, the state
still has azimuth 0 and elevation 0, so the first Stop or Status command
answers with digit bytes `[3,6,0,0]` for both axes (reporting `360.0`),
whatever the configured resolution. -/
theorem initial_state_status_digits (ppd : ℕ) (history : List (List ℤ))
    (hh : ∀ q ∈ history, q.length ≠ 13 ∨ q.getD 11 0 ≠ 0x2F)
    (p : List ℤ) (hlen : p.length = 13)
    (hK : p.getD 11 0 = 0x0F ∨ p.getD 11 0 = 0x1F) :
    (step (processAll (initState ppd) history) p).2 =
      [0x57, 3, 6, 0, 0, (ppd : ℤ), 3, 6, 0, 0, (ppd : ℤ), 0x20] := by
  rw [processAll_of_no_set history (initState ppd) hh]
  rw [step_of_stopStatus _ p hlen hK]
  exact responsePacket_init ppd

/-- Witness for C10 at resolution 4, after one incomplete frame. -/
theorem initial_state_status_digits_witness :
    (step (processAll (initState 4) [[]]) [0, 0, 0, 0, 0, 0, 0, 0, 0, 0, 0, 15, 0]).2 =
      [0x57, 3, 6, 0, 0, 4, 3, 6, 0, 0, 4, 0x20] := by
  have h := initial_state_status_digits 4 [[]] (by decide)
      [0, 0, 0, 0, 0, 0, 0, 0, 0, 0, 0, 15, 0] rfl (Or.inl rfl)
  simpa using h
